import Mathlib

/-!
# Case Organizer — verification of the client-side case-browser runtime

A shallow embedding of the stateful core of
`static/js/main.js`: the `smartTruncate` filename truncation, the infinite
year dropdown window, the results renderer and directory-tree overlay, the
notes modal state machine, and the response-processing branches of every
backend call the core issues.  Machine strings are modelled as `List Char`
(JS strings) or Lean `String`; JS numbers that hold integers are `Int`/`Nat`.
-/

namespace CaseOrg

/-! ## JS primitives

`jsSlice` is `String.prototype.slice` on a `List Char`: negative indices
count from the end, indices clamp to `[0, length]`, and a missing end
defaults to the length.  `lastIndexOf` is `String.prototype.lastIndexOf`
for a single character.  `jsOr` is the JS expression `x || d` (and
`x ? x : d`) for an optional string field, where the empty string is falsy. -/

def jsSlice (s : List Char) (start : Int) (stop : Option Int) : List Char :=
  let len : Int := s.length
  let a : Int := if start < 0 then max (len + start) 0 else min start len
  let b : Int :=
    match stop with
    | none => len
    | some e => if e < 0 then max (len + e) 0 else min e len
  (s.take b.toNat).drop a.toNat

def lastIndexOf : List Char → Char → Int
  | [], _ => -1
  | a :: rest, c =>
    let r := lastIndexOf rest c
    if r ≠ -1 then r + 1 else if a = c then 0 else -1

def jsOr (x : Option String) (d : String) : String :=
  match x with
  | some s => if s = "" then d else s
  | none => d

/-- `Math.ceil (k / 2)` for an integer `k` (JS float division then ceil). -/
def ceilHalf (k : Int) : Int := -((-k) / 2)

/-- `Math.floor (k / 2)` for an integer `k` (JS float division then floor). -/
def floorHalf (k : Int) : Int := k / 2

/-! ## `smartTruncate` (main.js lines 402–411)

```js
function smartTruncate(filename, maxLen = 100) {
  if (!filename || filename.length <= maxLen) return filename || '';
  const extIndex = filename.lastIndexOf('.');
  const ext = extIndex !== -1 ? filename.slice(extIndex) : '';
  const base = extIndex !== -1 ? filename.slice(0, extIndex) : filename;
  const keep = maxLen - ext.length - 3;
  const startLen = Math.ceil(keep / 2);
  const endLen = Math.floor(keep / 2);
  return base.slice(0, startLen) + '...' + base.slice(-endLen) + ext;
}
```

`extOf`/`baseOf` name the `ext`/`base` locals of the source. -/

def extOf (filename : List Char) : List Char :=
  if lastIndexOf filename '.' ≠ -1 then jsSlice filename (lastIndexOf filename '.') none
  else []

def baseOf (filename : List Char) : List Char :=
  if lastIndexOf filename '.' ≠ -1 then jsSlice filename 0 (some (lastIndexOf filename '.'))
  else filename

def smartTruncate (filename : List Char) (maxLen : Int) : List Char :=
  if filename = [] ∨ (filename.length : Int) ≤ maxLen then filename
  else
    let ext := extOf filename
    let base := baseOf filename
    let keep : Int := maxLen - ext.length - 3
    let startLen := ceilHalf keep
    let endLen := floorHalf keep
    jsSlice base 0 (some startLen) ++ ['.', '.', '.'] ++ jsSlice base (-endLen) none ++ ext

/-! ## Infinite year dropdown (main.js `initYearDropdown`, lines 160–365)

State is the closure triple `from`/`to`/`selected` (`from` is a Lean keyword,
so the fields are prefixed with `y`).  `CHUNK = 80` years are added per
extension.  Events:
* `scroll nearTop nearBottom` — the panel scroll listener; the two booleans
  are the DOM measurements `scrollTop <= THRESHOLD` and
  `scrollHeight - clientHeight - scrollTop <= THRESHOLD`;
* `key k` — the panel keydown listener for
  ArrowUp/ArrowDown/PageUp/PageDown/Home/End (Enter/Escape only close and
  change no state);
* `wheel up` — the wheel listener on the closed trigger
  (`setYear(selected ± 1)`, no window extension). -/

structure YearWindow where
  yFrom : Int
  yTo : Int
  selected : Int
deriving DecidableEq

def CHUNK : Int := 80

inductive YDKey
  | arrowUp
  | arrowDown
  | pageUp
  | pageDown
  | homeKey
  | endKey
deriving DecidableEq

inductive YDEvent
  | scroll (nearTop nearBottom : Bool)
  | key (k : YDKey)
  | wheel (up : Bool)
deriving DecidableEq

def keyNext (cur : Int) : YDKey → Int
  | .arrowUp => cur + 1
  | .arrowDown => cur - 1
  | .pageUp => cur + 10
  | .pageDown => cur - 10
  | .homeKey => 9999
  | .endKey => 1

def ydStep (s : YearWindow) : YDEvent → YearWindow
  | .scroll nearTop nearBottom =>
    let s1 := if nearTop then { s with yFrom := s.yFrom - CHUNK } else s
    if nearBottom then { s1 with yTo := s1.yTo + CHUNK } else s1
  | .key k =>
    let next := keyNext s.selected k
    let s1 := { s with selected := next }
    if next < s1.yFrom + 5 then { s1 with yFrom := next - CHUNK }
    else if next > s1.yTo - 5 then { s1 with yTo := next + CHUNK }
    else s1
  | .wheel up => { s with selected := s.selected + (if up then 1 else -1) }

def ydInit (anchor : Int) : YearWindow :=
  { yFrom := anchor - CHUNK, yTo := anchor + CHUNK, selected := anchor }

def ydRun (anchor : Int) (evs : List YDEvent) : YearWindow :=
  evs.foldl ydStep (ydInit anchor)

def ydInv (s : YearWindow) : Prop :=
  s.yFrom ≤ s.selected ∧ s.selected ≤ s.yTo

instance (s : YearWindow) : Decidable (ydInv s) := by
  unfold ydInv; infer_instance

def ydWidth (s : YearWindow) : Int := s.yTo - s.yFrom

def isWheel : YDEvent → Bool
  | .wheel _ => true
  | _ => false

/-! ## Backend responses

`FetchRes` is the observable outcome of one `fetch`: either the promise
rejects (`netError`, carrying the error's message) or a response arrives
with an HTTP status and a JSON body; `parsed = none` means
`resp.json()` rejected (each handler substitutes its own catch default).
`RespBody` is a record of the JSON fields the core ever reads; a field the
server did not send is `none`.  `is2xx` is `Response.ok`;
`okTruthy` is the truthiness test `data.ok` for a boolean field. -/

structure SearchRec where
  file : String
  path : String
  rel : Option String := none
deriving DecidableEq

structure CaseHit where
  caseName : String
  year : String
  month : String
deriving DecidableEq

structure DirFile where
  name : String
  path : String
deriving DecidableEq

structure RespBody where
  ok : Option Bool := none
  msg : Option String := none
  error : Option String := none
  results : Option (List SearchRec) := none
  caseHits : Option (List CaseHit) := none
  dirs : Option (List String) := none
  files : Option (List DirFile) := none
  content : Option String := none
  template : Option String := none
  summary : Option String := none
deriving DecidableEq

def RespBody.empty : RespBody := {}

inductive FetchRes
  | netError (msg : String)
  | response (status : Nat) (parsed : Option RespBody)
deriving DecidableEq

def is2xx (status : Nat) : Bool := decide (200 ≤ status) && decide (status < 300)

def okTruthy (d : RespBody) : Bool := d.ok == some true

def httpMsg (status : Nat) : String := "HTTP " ++ toString status

/-- A response the spec calls a failure: an HTTP response whose status is
not 2xx or whose JSON body lacks a truthy `ok` (a body that failed to
parse lacks every field). -/
def badResp : FetchRes → Bool
  | .netError _ => false
  | .response status parsed => !(is2xx status && okTruthy (parsed.getD .empty))

/-! ## Results renderer and directory overlay
(main.js `renderResults` lines 475–514, `showDirLevel` lines 517–577,
`dir-search` click handler lines 2012–2045)

The `#results` surface is a list of rows.  `GlobalState` holds the module
globals: `dirSearchState` (`active`, `previousScroll`, `currentPath`),
`lastRenderedResults`, the rendered surface, its scroll offset, and the
`#dir-search` button's active look. -/

inductive Row
  | loading
  | noResults
  | usePrompt
  | emptyDir
  | errorRow (msg : String)
  | upRow
  | dirRow (name : String)
  | resultRow (rec : SearchRec)
deriving DecidableEq

structure GlobalState where
  dirActive : Bool
  previousScroll : Int
  currentPath : String
  btnActive : Bool
  lastRendered : Option (List SearchRec)
  surface : List Row
  scrollTop : Int
deriving DecidableEq

/-- `cloneResults` (lines 475–478): `null` for a non-array, else a list of
shallow record copies. -/
def cloneResults : Option (List SearchRec) → Option (List SearchRec)
  | none => none
  | some l => some (l.map fun r => { file := r.file, path := r.path, rel := r.rel })

/-- `renderResults(list)` (lines 488–514).  The argument is `none` when the
caller passed a non-array value (`list` nullish): then `cloneResults`
stores `null` and the `!list` branch renders the placeholder. -/
def renderResults (g : GlobalState) (list : Option (List SearchRec)) : GlobalState :=
  let g :=
    if g.dirActive then
      { g with dirActive := false, previousScroll := 0, currentPath := "", btnActive := false }
    else g
  let g := { g with lastRendered := cloneResults list }
  match list with
  | none => { g with surface := [Row.noResults] }
  | some l =>
    if l.isEmpty then { g with surface := [Row.noResults] }
    else { g with surface := l.map Row.resultRow }

/-- The rows `showDirLevel` builds from a directory listing body
(lines 531–572): an up row iff the path is non-empty, a folder row per
subdirectory, a result row per file, and `(empty)` iff both lists are
missing or empty. -/
def dirLevelRows (relPath : String) (d : RespBody) : List Row :=
  let dirs := d.dirs.getD []
  let files := d.files.getD []
  (if relPath = "" then [] else [Row.upRow]) ++
    dirs.map Row.dirRow ++
    files.map (fun f => Row.resultRow { file := f.name, path := f.path, rel := some f.name }) ++
    (if dirs.isEmpty && files.isEmpty then [Row.emptyDir] else [])

inductive DirOutcome
  | discarded
  | errorSurface (msg : String)
  | renderedListing (rows : List Row)
deriving DecidableEq

/-- What `showDirLevel` does when its fetch settles, as a function of the
`active` flag read at that moment (lines 528–576): if the navigator is no
longer active the completion returns without touching anything; a fetch
error renders an inline error row; otherwise the listing rows are rendered
regardless of the HTTP status (the handler never reads `resp.ok` or
`data.ok`, and a JSON parse error falls back to `{}`). -/
def showDirLevelOn (active : Bool) (relPath : String) (r : FetchRes) : DirOutcome :=
  if !active then .discarded
  else
    match r with
    | .netError m => .errorSurface ("Error: " ++ m)
    | .response _ parsed => .renderedListing (dirLevelRows relPath (parsed.getD .empty))

/-- Applying a settled `showDirLevel` fetch to the global state. -/
def completeDirLevel (g : GlobalState) (relPath : String) (r : FetchRes) : GlobalState :=
  match showDirLevelOn g.dirActive relPath r with
  | .discarded => g
  | .errorSurface m => { g with surface := [Row.errorRow m] }
  | .renderedListing rows => { g with surface := rows }

/-- The part of `showDirLevel` that runs before its `await` (lines
518–525): bail out if the navigator is inactive, else record the requested
path; the fetch is left pending. -/
def requestDirLevel (g : GlobalState) (relPath : String) : GlobalState :=
  if !g.dirActive then g else { g with currentPath := relPath }

/-- The `#dir-search` click handler (lines 2015–2044).  Inactive: enter
overlay mode (capture scroll, show the loading row, start
`showDirLevel('')`).  Active: exit — restore the snapshot through
`renderResults` at the captured scroll offset, or the default placeholder
when there is no snapshot, then zero `previousScroll`. -/
def dirBtnClick (g : GlobalState) : GlobalState :=
  if !g.dirActive then
    let g := { g with
      dirActive := true, previousScroll := g.scrollTop, currentPath := "",
      btnActive := true, surface := [Row.loading] }
    requestDirLevel g ""
  else
    let g1 := { g with dirActive := false, currentPath := "", btnActive := false }
    match cloneResults g1.lastRendered with
    | some snapshot =>
      let g2 := renderResults g1 (some snapshot)
      let g2 := { g2 with scrollTop := g2.previousScroll }
      { g2 with previousScroll := 0 }
    | none => { g1 with surface := [Row.usePrompt], previousScroll := 0 }

/-- The surface `renderResults` shows for a list (used to state restoration
results). -/
def renderRowsOf (l : List SearchRec) : List Row :=
  if l.isEmpty then [Row.noResults] else l.map Row.resultRow

/-! ## Notes modal (main.js `bindGlobalNotesModalHandlers`, lines 1706–1910)

`NotesModal` is the closure state: `modal.dataset.state` / `.intent` (DOM
strings, initially empty), the `rawContent` / `originalContent` /
`noteContext` locals, the live editor buffer `editorValue`, the save
button's disabled flag, the three buttons' visibility, the editor's
readOnly flag, and whether the modal is shown. -/

inductive NoteCtx
  | caseLaw (id : String)
  | caseTriple (year month caseName : String)
deriving DecidableEq

structure NotesModal where
  state : String
  intent : String
  rawContent : String
  originalContent : String
  editorValue : String
  saveDisabled : Bool
  saveVisible : Bool
  cancelVisible : Bool
  editVisible : Bool
  editorReadOnly : Bool
  isOpen : Bool
  context : Option NoteCtx
deriving DecidableEq

/-- `asViewText` (lines 1717–1722): the regex
`/\\r\\n|\\n|\\r/g` replaces each literal escape sequence with a real
line break. -/
def asViewText : List Char → List Char
  | '\\' :: 'r' :: '\\' :: 'n' :: rest => '\n' :: asViewText rest
  | '\\' :: 'n' :: rest => '\n' :: asViewText rest
  | '\\' :: 'r' :: rest => '\n' :: asViewText rest
  | c :: rest => c :: asViewText rest
  | [] => []

def asViewTextS (s : String) : String := String.mk (asViewText s.data)

/-- `updateDirtyState` (lines 1734–1740). -/
def updateDirtyState (s : NotesModal) : NotesModal :=
  if s.state ≠ "edit" then { s with saveDisabled := true }
  else { s with saveDisabled := s.editorValue == s.originalContent }

/-- `setState` (lines 1742–1758). -/
def setState (st : String) (s : NotesModal) : NotesModal :=
  let s := { s with
    state := st,
    editorReadOnly := !(st == "edit"),
    saveVisible := st == "edit",
    cancelVisible := st == "edit",
    editVisible := !((st == "edit") || (s.intent == "create")) }
  let s :=
    if st == "edit" then { s with editorValue := s.rawContent }
    else { s with editorValue := asViewTextS s.rawContent }
  updateDirtyState s

/-- `openModal` (lines 1760–1775). -/
def openModal (content intent : String) (s : NotesModal) : NotesModal :=
  let s := { s with
    intent := if intent == "create" then "create" else "update",
    rawContent := content,
    originalContent := content }
  let s := setState (if intent == "create" then "edit" else "view") s
  { s with isOpen := true }

/-- `closeModal` (lines 1777–1784). -/
def closeModal (s : NotesModal) : NotesModal :=
  { s with isOpen := false, editorReadOnly := true, context := none }

/-- `window._openNotesWith` (lines 1787–1790). -/
def openNotesWith (content intent : String) (ctx : Option NoteCtx) (s : NotesModal) : NotesModal :=
  openModal content intent { s with context := ctx }

/-- The edit button handler (lines 1792–1797). -/
def editClickAction (s : NotesModal) : NotesModal :=
  setState "edit" { s with rawContent := s.originalContent }

/-- `handleCancel` (lines 1880–1894). -/
def handleCancel (s : NotesModal) : NotesModal :=
  if !(s.state == "edit") then
    setState "view" { s with rawContent := s.originalContent }
  else
    let s := { s with rawContent := s.originalContent }
    if s.intent == "create" then setState "view" (closeModal s)
    else setState "view" s

/-- Whether the save fetch counts as success in `saveCurrent`:
`resp.ok && data.ok` (a rejected fetch or a body without a truthy `ok`
throws into the catch). -/
def saveOk : FetchRes → Bool
  | .netError _ => false
  | .response status parsed => is2xx status && okTruthy (parsed.getD .empty)

/-- The message of the error `saveCurrent` throws for a failed response:
`data.msg || 'HTTP ' + resp.status`, or the fetch error's own message. -/
def saveErrMsg : FetchRes → String
  | .netError m => m
  | .response status parsed => jsOr (parsed.getD .empty).msg (httpMsg status)

/-- `saveCurrent` (lines 1799–1878).  Inputs beyond the modal state: the
`#mc-year`/`#mc-month`/`#mc-case` DOM values read during the call, and the
outcome of whichever fetch the context dispatches to.  Returns the new
state and the alert shown (if any). -/
def saveCurrent (s : NotesModal) (domYear domMonth domCase : String) (r : FetchRes) :
    NotesModal × Option String :=
  let intent0 := if s.intent == "create" then "create" else "update"
  match s.context with
  | some (NoteCtx.caseLaw caseId) =>
    if caseId == "" then (s, some "Missing case-law identifier.")
    else if saveOk r then
      let s1 := { s with rawContent := s.editorValue, originalContent := s.editorValue }
      let s2 := { s1 with intent := "update" }
      (closeModal (setState "view" s2), some "Notes saved!")
    else (s, some ("Save failed: " ++ saveErrMsg r))
  | ctx =>
    let year :=
      match ctx with
      | some (NoteCtx.caseTriple y _ _) => if y == "" then domYear else y
      | _ => domYear
    let month :=
      match ctx with
      | some (NoteCtx.caseTriple _ m _) => if m == "" then domMonth else m
      | _ => domMonth
    let cname :=
      match ctx with
      | some (NoteCtx.caseTriple _ _ c) => if c == "" then domCase else c
      | _ => domCase
    if year == "" || month == "" || cname == "" then
      (s, some "Select Year, Month, and Case first.")
    else if saveOk r then
      let s1 := { s with rawContent := s.editorValue, originalContent := s.editorValue }
      let s2 := { s1 with intent := "update" }
      (closeModal (setState "view" s2),
        some (if intent0 == "create" then "Note.json created!" else "Notes saved!"))
    else (s, some ("Save failed: " ++ saveErrMsg r))

/-- The client-side validation `saveCurrent` performs before issuing any
request: a case-law context needs a non-empty id; the case path needs the
resolved year/month/case (context field, falling back to the DOM value)
all non-empty. -/
def saveValidation (s : NotesModal) (domYear domMonth domCase : String) : Bool :=
  match s.context with
  | some (NoteCtx.caseLaw caseId) => !(caseId == "")
  | ctx =>
    let year :=
      match ctx with
      | some (NoteCtx.caseTriple y _ _) => if y == "" then domYear else y
      | _ => domYear
    let month :=
      match ctx with
      | some (NoteCtx.caseTriple _ m _) => if m == "" then domMonth else m
      | _ => domMonth
    let cname :=
      match ctx with
      | some (NoteCtx.caseTriple _ _ c) => if c == "" then domCase else c
      | _ => domCase
    !(year == "" || month == "" || cname == "")

/-- The user events the bound modal reacts to.  Click events only fire on a
visible modal and a visible (and, for save, enabled) control; input events
only fire on a writable editor. -/
inductive ModalEvent
  | openWith (content intent : String) (ctx : Option NoteCtx)
  | inputEvt (v : String)
  | editClick
  | saveClick (domYear domMonth domCase : String) (r : FetchRes)
  | cancelClick
  | closeClick
deriving DecidableEq

def modalStep (s : NotesModal) : ModalEvent → NotesModal
  | .openWith c i ctx => openNotesWith c i ctx s
  | .inputEvt v =>
    if s.isOpen && !s.editorReadOnly then updateDirtyState { s with editorValue := v } else s
  | .editClick => if s.isOpen && s.editVisible then editClickAction s else s
  | .saveClick dy dm dc r =>
    if s.isOpen && s.saveVisible && !s.saveDisabled then (saveCurrent s dy dm dc r).1 else s
  | .cancelClick => if s.isOpen && s.cancelVisible then handleCancel s else s
  | .closeClick =>
    if s.isOpen then setState "view" (closeModal { s with rawContent := s.originalContent }) else s

/-- The state right after `bindGlobalNotesModalHandlers` wires the modal
(lines 1896–1899 hide save/cancel, show edit, disable save; the dataset
attributes are still unset and the modal hidden). -/
def modalInit : NotesModal :=
  { state := "", intent := "", rawContent := "", originalContent := "", editorValue := "",
    saveDisabled := true, saveVisible := false, cancelVisible := false, editVisible := true,
    editorReadOnly := false, isOpen := false, context := none }

def modalRun (evs : List ModalEvent) : NotesModal :=
  evs.foldl modalStep modalInit

/-- The dirty-tracking invariant of the spec:
`saveEnabled ⇔ (state == 'edit' AND rawContent ≠ originalContent)`,
with the live buffer as the left operand of the inequality. -/
def dirtyInv (s : NotesModal) : Prop :=
  s.saveDisabled = false ↔ (s.state = "edit" ∧ s.editorValue ≠ s.originalContent)

instance (s : NotesModal) : Decidable (dirtyInv s) := by
  unfold dirtyInv; infer_instance

/-! ## Response processing of the remaining backend calls

Each function is the response-handling tail of one fetch in main.js, as a
map from the fetch outcome to what the handler does with it. -/

/-- `runBasicSearch` (lines 127–134): a rejected fetch escapes the `async`
function unhandled; otherwise `data.results || []` is rendered with no
look at `resp.ok` or `data.ok` (`.json()` errors default to
`{results: []}`). -/
inductive SearchR
  | rendered (list : List SearchRec)
  | threw (msg : String)
deriving DecidableEq

def runBasicSearchOn : FetchRes → SearchR
  | .netError m => .threw m
  | .response _ parsed =>
    .rendered (((parsed.getD { results := some [] }).results).getD [])

/-- `runAdvancedSearch` (lines 136–157): identical response handling. -/
def runAdvancedSearchOn : FetchRes → SearchR
  | .netError m => .threw m
  | .response _ parsed =>
    .rendered (((parsed.getD { results := some [] }).results).getD [])

/-- The delete-button handler in `buildResultItem` (lines 446–461). -/
inductive DeleteR
  | rowRemoved
  | alertedDel (msg : String)
deriving DecidableEq

def deleteFileOn : FetchRes → DeleteR
  | .netError m => .alertedDel ("Delete failed: " ++ m)
  | .response status parsed =>
    let data := parsed.getD .empty
    if !(is2xx status) || !(okTruthy data) then
      .alertedDel ("Delete failed: " ++ jsOr data.msg (httpMsg status))
    else .rowRemoved

/-- `performNameSearch` (lines 991–1010): only `!resp.ok` throws
(`data.error || 'HTTP ' + status`); a 2xx body is rendered whether or not
it carries `ok`. -/
inductive NameSearchR
  | renderedCases (cs : List CaseHit)
  | errorShownName (msg : String)
deriving DecidableEq

def performNameSearchOn : FetchRes → NameSearchR
  | .netError m => .errorShownName ("Search failed: " ++ m)
  | .response status parsed =>
    let data := parsed.getD .empty
    if !(is2xx status) then
      .errorShownName ("Search failed: " ++ jsOr data.error (httpMsg status))
    else .renderedCases (data.caseHits.getD [])

/-- `performSearch` in `caseLawSearchForm` (lines 1610–1658): only
`!resp.ok` throws; failures are alerted. -/
inductive CLSearchR
  | renderedCL (list : List SearchRec)
  | alertedCL (msg : String)
deriving DecidableEq

def performCLSearchOn : FetchRes → CLSearchR
  | .netError m => .alertedCL ("Search failed: " ++ m)
  | .response status parsed =>
    let data := parsed.getD .empty
    if !(is2xx status) then
      .alertedCL ("Search failed: " ++ jsOr data.error (httpMsg status))
    else .renderedCL (data.results.getD [])

/-- `NOTE_TEMPLATE_DEFAULT` / `defaultNoteTemplate()` (lines 62–94). -/
def defaultNoteTemplate : String :=
  "\x7b\n  \"Petitioner Name\": \"\",\n  \"Petitioner Address\": \"\",\n  \"Petitioner Contact\": \"\",\n\n  \"Respondent Name\": \"\",\n  \"Respondent Address\": \"\",\n  \"Respondent Contact\": \"\",\n\n  \"Our Party\": \"\",\n\n  \"Case Category\": \"\",\n  \"Case Subcategory\": \"\",\n  \"Case Type\": \"\",\n\n  \"Court of Origin\": \x7b\n    \"State\": \"\",\n    \"District\": \"\",\n    \"Court/Forum\": \"\"\n  \x7d,\n\n  \"Current Court/Forum\": \x7b\n    \"State\": \"\",\n    \"District\": \"\",\n    \"Court/Forum\": \"\"\n  \x7d,\n\n  \"Additional Notes\": \"\"\n\x7d"

/-- The record `getNoteState` resolves to. -/
structure NoteState where
  noteExists : Bool
  content : String
  template : String
deriving DecidableEq

/-- `getNoteState` (lines 882–902): `.json()` errors default to `null`;
existence requires `resp.ok && data?.ok`; a thrown fetch is logged and
reported as no note. -/
def getNoteState : FetchRes → NoteState
  | .netError _ => { noteExists := false, content := "", template := defaultNoteTemplate }
  | .response status parsed =>
    match parsed with
    | some d =>
      if is2xx status && okTruthy d then
        { noteExists := true, content := jsOr d.content "",
          template := jsOr d.template defaultNoteTemplate }
      else
        { noteExists := false, content := "", template := jsOr d.template defaultNoteTemplate }
    | none => { noteExists := false, content := "", template := defaultNoteTemplate }

/-- What the `View / Edit Note.json` click handler does (lines 938–952). -/
structure ClickOutcome where
  opened : Option (String × String × NoteCtx)
  alerted : Option String
  recomputedActions : Bool
deriving DecidableEq

/-- `noteBtn.onclick`: re-runs `getNoteState` on the triple read from the
selects at click time; a missing note alerts and re-runs
`updateCaseActions`; an existing note opens the modal with the freshly
fetched content, intent `update`, and a context naming the click-time
triple. -/
def noteBtnOnClick (year month caseName : String) (fresh : FetchRes) : ClickOutcome :=
  let currentState := getNoteState fresh
  if !currentState.noteExists then
    { opened := none, alerted := some "Note.json not found for this case.",
      recomputedActions := true }
  else
    { opened := some (jsOr (some currentState.content) "", "update",
        NoteCtx.caseTriple year month caseName),
      alerted := none, recomputedActions := false }

/-! ## The claims under test, as stated -/

/-- Claim C1 as stated: for every backend request issued by the core, a
non-2xx response or a body lacking a truthy `ok` is treated as a failure
and surfaced (for the note existence probe, treated as "no note"); no such
response is processed as a successful result. -/
def claim_C1 : Prop :=
  (∀ r, badResp r = true → ∃ m, runBasicSearchOn r = .threw m) ∧
  (∀ r, badResp r = true → ∃ m, runAdvancedSearchOn r = .threw m) ∧
  (∀ relPath r, badResp r = true → ∃ m, showDirLevelOn true relPath r = .errorSurface m) ∧
  (∀ r, badResp r = true → ∃ m, deleteFileOn r = .alertedDel m) ∧
  (∀ r, badResp r = true → (getNoteState r).noteExists = false) ∧
  (∀ s dy dm dc r, saveValidation s dy dm dc = true → badResp r = true →
    (saveCurrent s dy dm dc r).1 = s ∧ (saveCurrent s dy dm dc r).2.isSome = true) ∧
  (∀ r, badResp r = true → ∃ m, performNameSearchOn r = .errorShownName m) ∧
  (∀ r, badResp r = true → ∃ m, performCLSearchOn r = .alertedCL m)

/-- Claim C9 as stated: every `renderResults` call, for any argument, ends
with `dirSearchState` reset to `{active: false, previousScroll: 0,
currentPath: ''}` and the directory button inactive. -/
def claim_C9 : Prop :=
  ∀ (g : GlobalState) (list : Option (List SearchRec)),
    (renderResults g list).dirActive = false ∧
    (renderResults g list).previousScroll = 0 ∧
    (renderResults g list).currentPath = "" ∧
    (renderResults g list).btnActive = false

/-- The strengthened year-window invariant: the claimed ordering plus the
fact that the window is always at least its initial `2 * CHUNK` span (the
keydown extension logic relies on this slack). -/
def ydStrong (s : YearWindow) : Prop :=
  s.yFrom ≤ s.selected ∧ s.selected ≤ s.yTo ∧ s.yFrom + 2 * CHUNK ≤ s.yTo

/-- Whether a click-time note probe reports an existing note:
a 2xx response whose parsed body carries a truthy `ok`. -/
def respOkFresh : FetchRes → Bool
  | .netError _ => false
  | .response status parsed =>
    is2xx status &&
      (match parsed with
       | some d => okTruthy d
       | none => false)

/-! Concrete states used by witnesses. -/

def recEx : SearchRec := { file := "a.txt", path := "2024/Mar/a.txt" }

def gInactiveEx : GlobalState :=
  { dirActive := false, previousScroll := 0, currentPath := "", btnActive := false,
    lastRendered := some [recEx], surface := [Row.resultRow recEx], scrollTop := 12 }

def gActiveEx : GlobalState :=
  { dirActive := true, previousScroll := 12, currentPath := "sub", btnActive := true,
    lastRendered := some [recEx], surface := [Row.upRow], scrollTop := 0 }

def gScrolledEx : GlobalState :=
  { dirActive := false, previousScroll := 5, currentPath := "left", btnActive := false,
    lastRendered := none, surface := [], scrollTop := 0 }

def bodyMsgEx : RespBody := { msg := some "disk full" }

def modalEditEx : NotesModal :=
  { state := "edit", intent := "update", rawContent := "old", originalContent := "old",
    editorValue := "new", saveDisabled := false, saveVisible := true, cancelVisible := true,
    editVisible := false, editorReadOnly := false, isOpen := true,
    context := some (NoteCtx.caseTriple "2024" "Mar" "Doe v. Roe") }

/-! ## Lemmas: year dropdown -/

lemma ydStep_width_mono (s : YearWindow) (e : YDEvent) : ydWidth s ≤ ydWidth (ydStep s e) := by
  cases e with
  | scroll nearTop nearBottom =>
    cases nearTop <;> cases nearBottom <;> simp [ydStep, ydWidth, CHUNK] <;> omega
  | key k =>
    simp only [ydStep, ydWidth, CHUNK]
    split_ifs <;> simp <;> omega
  | wheel up => simp [ydStep, ydWidth]

lemma ydStep_strong (s : YearWindow) (e : YDEvent) (h : ydStrong s) (hw : isWheel e = false) :
    ydStrong (ydStep s e) := by
  obtain ⟨h1, h2, h3⟩ := h
  cases e with
  | scroll nearTop nearBottom =>
    cases nearTop <;> cases nearBottom <;>
      simp_all [ydStep, ydStrong, CHUNK] <;> omega
  | key k =>
    simp only [ydStep, ydStrong, CHUNK] at *
    split_ifs <;> simp_all <;> omega
  | wheel up => simp [isWheel] at hw

lemma ydRun_strong (anchor : Int) (evs : List YDEvent) (h : ∀ e ∈ evs, isWheel e = false) :
    ydStrong (ydRun anchor evs) := by
  have hinit : ydStrong (ydInit anchor) := by
    simp [ydInit, ydStrong, CHUNK]; omega
  suffices H : ∀ (l : List YDEvent) (s : YearWindow), ydStrong s →
      (∀ e ∈ l, isWheel e = false) → ydStrong (l.foldl ydStep s) by
    exact H evs (ydInit anchor) hinit h
  intro l
  induction l with
  | nil => intro s hs _; simpa using hs
  | cons e t ih =>
    intro s hs hl
    simp only [List.foldl_cons]
    exact ih _ (ydStep_strong s e hs (hl e (by simp))) fun x hx => hl x (by simp [hx])

/-! ## C2 -/

/-- C2, amended: starting from `from = anchor − 80, to = anchor + 80,
selected = anchor`, the invariant `from ≤ selected ≤ to` holds after every
panel-scroll and keyboard event of any wheel-free event sequence, and
`to − from` never decreases at any step of any sequence (wheel nudges
included).  (Wheel nudges on the closed trigger move `selected` without
growing the window, so they can push `selected` outside `[from, to]` —
see the counterexample.) -/
theorem C2_amended (anchor : Int) (evs : List YDEvent) :
    ((∀ e ∈ evs, isWheel e = false) → ydInv (ydRun anchor evs)) ∧
    (∀ e, ydWidth (ydRun anchor evs) ≤ ydWidth (ydStep (ydRun anchor evs) e)) := by
  constructor
  · intro h
    have hs := ydRun_strong anchor evs h
    exact ⟨hs.1, hs.2.1⟩
  · intro e
    exact ydStep_width_mono (ydRun anchor evs) e

theorem C2_amended_witness :
    ydInv (ydRun 2025 [YDEvent.key YDKey.homeKey, YDEvent.scroll true false]) ∧
    ydWidth (ydRun 2025 [YDEvent.wheel true]) ≤
      ydWidth (ydStep (ydRun 2025 [YDEvent.wheel true]) (YDEvent.wheel false)) :=
  ⟨(C2_amended 2025 [YDEvent.key YDKey.homeKey, YDEvent.scroll true false]).1 (by decide),
   (C2_amended 2025 [YDEvent.wheel true]).2 (YDEvent.wheel false)⟩

set_option maxRecDepth 4000 in
/-- C2, counterexample: 81 wheel nudges upward on the closed trigger
(each runs `setYear(selected + 1)` with no window extension) drive
`selected` to `anchor + 81` while `to` stays at `anchor + 80`, so
`from ≤ selected ≤ to` fails after the last event. -/
theorem C2_counterexample :
    ¬ ydInv (ydRun 0 (List.replicate 81 (YDEvent.wheel true))) := by decide

/-! ## Lemmas: renderer and directory overlay -/

lemma cloneResults_eq (o : Option (List SearchRec)) : cloneResults o = o := by
  cases o with
  | none => rfl
  | some l =>
    simp only [cloneResults, Option.some.injEq]
    exact List.map_id l

lemma renderResults_inactive (g : GlobalState) (l : List SearchRec) (h : g.dirActive = false) :
    renderResults g (some l) = { g with lastRendered := some l, surface := renderRowsOf l } := by
  by_cases hl : l.isEmpty <;>
    simp [renderResults, renderRowsOf, h, hl, cloneResults_eq]

lemma dirBtnClick_exit_inactive (g : GlobalState) (h : g.dirActive = true) :
    (dirBtnClick g).dirActive = false := by
  simp only [dirBtnClick, h]
  cases hr : g.lastRendered with
  | none => simp [cloneResults_eq, hr]
  | some l => simp [cloneResults_eq, hr, renderResults_inactive]

/-! ## C6 -/

/-- C6: when a `showDirLevel` fetch settles (with a response or an error),
the completion is a no-op whenever the directory overlay is inactive at
that moment — in particular, exiting directory mode (a `#dir-search` click
while active) before a pending fetch resolves means the arriving
completion changes nothing, even though the overlay was active when the
request was issued.  The decision is taken from the `active` flag at
arrival time. -/
theorem C6_stale (g : GlobalState) (relPath : String) (r : FetchRes) :
    (g.dirActive = false → completeDirLevel g relPath r = g) ∧
    (g.dirActive = true → completeDirLevel (dirBtnClick g) relPath r = dirBtnClick g) := by
  constructor
  · intro h
    cases r <;> simp [completeDirLevel, showDirLevelOn, h]
  · intro h
    have hd := dirBtnClick_exit_inactive g h
    cases r <;> simp [completeDirLevel, showDirLevelOn, hd]

theorem C6_stale_witness :
    completeDirLevel gInactiveEx "a/b" (FetchRes.netError "boom") = gInactiveEx ∧
    completeDirLevel (dirBtnClick gActiveEx) "a/b"
        (FetchRes.response 200 (some { dirs := some ["x"] })) = dirBtnClick gActiveEx :=
  ⟨(C6_stale gInactiveEx "a/b" (FetchRes.netError "boom")).1 rfl,
   (C6_stale gActiveEx "a/b" (FetchRes.response 200 (some { dirs := some ["x"] }))).2 rfl⟩

/-! ## C7 -/

/-- C7: a `#dir-search` click that exits directory mode (here: entering
from an inactive state and immediately exiting, before any fetch settles)
leaves the overlay inactive, restores the snapshot of the last
non-directory render to the results surface — exactly the rows that were
showing before entry when the pre-entry surface was that snapshot's
render — at the scroll offset captured on entry, and falls back to the
default placeholder when no snapshot exists. -/
theorem C7_restore (g : GlobalState) (h : g.dirActive = false) :
    (dirBtnClick (dirBtnClick g)).dirActive = false ∧
    (dirBtnClick (dirBtnClick g)).scrollTop = g.scrollTop ∧
    (∀ l, g.lastRendered = some l →
      (dirBtnClick (dirBtnClick g)).surface = renderRowsOf l ∧
      (g.surface = renderRowsOf l → (dirBtnClick (dirBtnClick g)).surface = g.surface)) ∧
    (g.lastRendered = none → (dirBtnClick (dirBtnClick g)).surface = [Row.usePrompt]) := by
  have henter : dirBtnClick g =
      { g with dirActive := true, previousScroll := g.scrollTop, currentPath := "",
               btnActive := true, surface := [Row.loading] } := by
    simp [dirBtnClick, h, requestDirLevel]
  rw [henter]
  cases hr : g.lastRendered with
  | none =>
    refine ⟨?_, ?_, ?_, ?_⟩ <;>
      simp [dirBtnClick, cloneResults_eq, hr]
  | some l =>
    have hstep : dirBtnClick
        ({ g with dirActive := true, previousScroll := g.scrollTop,
                  currentPath := "", btnActive := true, lastRendered := some l,
                  surface := [Row.loading] }) =
        { g with dirActive := false, previousScroll := 0, currentPath := "",
                 btnActive := false, lastRendered := some l, surface := renderRowsOf l,
                 scrollTop := g.scrollTop } := by
      by_cases hl : l.isEmpty <;>
        simp [dirBtnClick, cloneResults_eq, renderResults, renderRowsOf, hl]
    rw [hstep]
    refine ⟨rfl, rfl, ?_, ?_⟩
    · intro l' hl'
      injection hl' with hll
      subst hll
      exact ⟨rfl, fun hs => hs.symm⟩
    · intro hnone
      cases hnone

theorem C7_restore_witness :
    (dirBtnClick (dirBtnClick gInactiveEx)).surface = gInactiveEx.surface ∧
    (dirBtnClick (dirBtnClick gInactiveEx)).scrollTop = gInactiveEx.scrollTop ∧
    (dirBtnClick (dirBtnClick gInactiveEx)).dirActive = false :=
  ⟨((C7_restore gInactiveEx rfl).2.2.1 [recEx] rfl).2 (by decide),
   (C7_restore gInactiveEx rfl).2.1,
   (C7_restore gInactiveEx rfl).1⟩

/-! ## C9 -/

/-- C9, counterexample: `renderResults` called while directory mode is
inactive leaves `dirSearchState` untouched, so a call in a state with
`previousScroll = 5` does not end with `previousScroll = 0` (the reset of
the triple and of the button only runs in the `dirSearchState.active`
branch). -/
theorem C9_counterexample : ¬ claim_C9 := by
  intro hcl
  have h5 := (hcl gScrolledEx none).2.1
  simp [renderResults, gScrolledEx, cloneResults] at h5

/-- C9, amended: every `renderResults` call ends with directory-search
mode inactive — so freshly rendered results and the directory overlay are
never shown simultaneously.  When directory mode was active at the call,
`dirSearchState` is fully reset to `{active: false, previousScroll: 0,
currentPath: ''}` and the button restored to its inactive posture; when it
was already inactive, `dirSearchState` and the button are left as they
were. -/
theorem C9_amended (g : GlobalState) (list : Option (List SearchRec)) :
    (renderResults g list).dirActive = false ∧
    (g.dirActive = true →
      (renderResults g list).previousScroll = 0 ∧
      (renderResults g list).currentPath = "" ∧
      (renderResults g list).btnActive = false) ∧
    (g.dirActive = false →
      (renderResults g list).previousScroll = g.previousScroll ∧
      (renderResults g list).currentPath = g.currentPath ∧
      (renderResults g list).btnActive = g.btnActive) := by
  by_cases h : g.dirActive <;>
    cases list with
    | none => simp [renderResults, h]
    | some l => by_cases hl : l.isEmpty <;> simp [renderResults, h, hl]

theorem C9_amended_witness :
    (renderResults gActiveEx (some [recEx])).dirActive = false ∧
    (renderResults gActiveEx (some [recEx])).previousScroll = 0 ∧
    (renderResults gScrolledEx none).previousScroll = gScrolledEx.previousScroll :=
  ⟨(C9_amended gActiveEx (some [recEx])).1,
   ((C9_amended gActiveEx (some [recEx])).2.1 rfl).1,
   ((C9_amended gScrolledEx none).2.2 rfl).1⟩

/-! ## Lemmas: notes modal dirty tracking -/

lemma dirtyInv_updateDirtyState (s : NotesModal) : dirtyInv (updateDirtyState s) := by
  unfold dirtyInv updateDirtyState
  split_ifs with h
  · simp [h]
  · simp only [ne_eq, not_not] at h
    simp [h, beq_eq_false_iff_ne]

lemma dirtyInv_setState (st : String) (s : NotesModal) : dirtyInv (setState st s) := by
  unfold setState
  exact dirtyInv_updateDirtyState _

lemma dirtyInv_closeModal (s : NotesModal) (h : dirtyInv s) : dirtyInv (closeModal s) := by
  simpa [dirtyInv, closeModal] using h

lemma dirtyInv_mkOpen (s : NotesModal) (h : dirtyInv s) : dirtyInv { s with isOpen := true } := by
  simpa [dirtyInv] using h

lemma dirtyInv_openModal (c i : String) (s : NotesModal) : dirtyInv (openModal c i s) := by
  unfold openModal
  exact dirtyInv_mkOpen _ (dirtyInv_setState _ _)

lemma dirtyInv_saveCurrent (s : NotesModal) (dy dm dc : String) (r : FetchRes)
    (h : dirtyInv s) : dirtyInv (saveCurrent s dy dm dc r).1 := by
  unfold saveCurrent
  cases hctx : s.context with
  | none =>
    simp only [hctx]
    split_ifs <;> first
      | exact h
      | exact dirtyInv_closeModal _ (dirtyInv_setState _ _)
  | some c =>
    cases c with
    | caseLaw caseId =>
      simp only [hctx]
      split_ifs <;> first
        | exact h
        | exact dirtyInv_closeModal _ (dirtyInv_setState _ _)
    | caseTriple y m cn =>
      simp only [hctx]
      split_ifs <;> first
        | exact h
        | exact dirtyInv_closeModal _ (dirtyInv_setState _ _)

lemma dirtyInv_modalStep (s : NotesModal) (e : ModalEvent) (h : dirtyInv s) :
    dirtyInv (modalStep s e) := by
  cases e with
  | openWith c i ctx =>
    simp only [modalStep, openNotesWith]
    exact dirtyInv_openModal _ _ _
  | inputEvt v =>
    simp only [modalStep]
    split_ifs
    · exact dirtyInv_updateDirtyState _
    · exact h
  | editClick =>
    simp only [modalStep, editClickAction]
    split_ifs
    · exact dirtyInv_setState _ _
    · exact h
  | saveClick dy dm dc r =>
    simp only [modalStep]
    split_ifs
    · exact dirtyInv_saveCurrent _ _ _ _ _ h
    · exact h
  | cancelClick =>
    simp only [modalStep]
    split_ifs
    · unfold handleCancel
      split_ifs with h1
      · exact dirtyInv_setState _ _
      · dsimp only
        split_ifs <;> exact dirtyInv_setState _ _
    · exact h
  | closeClick =>
    simp only [modalStep]
    split_ifs
    · exact dirtyInv_setState _ _
    · exact h

lemma dirtyInv_modalRun (evs : List ModalEvent) : dirtyInv (modalRun evs) := by
  have hinit : dirtyInv modalInit := by simp [dirtyInv, modalInit]
  suffices H : ∀ (l : List ModalEvent) (s : NotesModal), dirtyInv s →
      dirtyInv (l.foldl modalStep s) by
    exact H evs modalInit hinit
  intro l
  induction l with
  | nil => intro s hs; simpa using hs
  | cons e t ih =>
    intro s hs
    simp only [List.foldl_cons]
    exact ih _ (dirtyInv_modalStep s e hs)

lemma saveCurrent_fail (s : NotesModal) (dy dm dc : String) (r : FetchRes)
    (hval : saveValidation s dy dm dc = true) (hko : saveOk r = false) :
    saveCurrent s dy dm dc r = (s, some ("Save failed: " ++ saveErrMsg r)) := by
  cases hctx : s.context with
  | none =>
    unfold saveCurrent saveValidation at *
    simp only [hctx] at *
    split_ifs <;> simp_all
  | some c =>
    cases c with
    | caseLaw caseId =>
      unfold saveCurrent saveValidation at *
      simp only [hctx] at *
      split_ifs <;> simp_all
    | caseTriple y m cn =>
      unfold saveCurrent saveValidation at *
      simp only [hctx] at *
      split_ifs <;> simp_all

/-! ## C4 -/

/-- C4: after any sequence of modal events, while the notes modal is open
the save button is enabled exactly when the modal state is `edit` and the
live editor buffer differs from `originalContent` — the flag is recomputed
by `updateDirtyState` on every input event and at the end of every state
transition, so any single-character change toggles it and a successful
save (which commits the buffer and returns to `view`) disables it
again. -/
theorem C4_invariant (evs : List ModalEvent) (_hopen : (modalRun evs).isOpen = true) :
    ((modalRun evs).saveDisabled = false ↔
      ((modalRun evs).state = "edit" ∧
        (modalRun evs).editorValue ≠ (modalRun evs).originalContent)) :=
  dirtyInv_modalRun evs

theorem C4_invariant_witness :
    (modalRun [ModalEvent.openWith "x" "create" none]).isOpen = true ∧
    ((modalRun [ModalEvent.openWith "x" "create" none]).saveDisabled = false ↔
      ((modalRun [ModalEvent.openWith "x" "create" none]).state = "edit" ∧
        (modalRun [ModalEvent.openWith "x" "create" none]).editorValue ≠
          (modalRun [ModalEvent.openWith "x" "create" none]).originalContent)) :=
  ⟨by decide, C4_invariant [ModalEvent.openWith "x" "create" none] (by decide)⟩

/-! ## C5 -/

/-- C5: when `saveCurrent` runs and the backend chosen by `context.kind`
answers 2xx with a truthy `ok`, the buffer is committed as the new
`originalContent` (and `rawContent`), `intent` flips to `update`, the
modal state returns to `view`, the modal closes and the context is
cleared, and a success alert is shown; when the save fails for any reason
(client-side validation, a thrown fetch, a non-2xx status, or a body
without a truthy `ok`), an alert is surfaced and the modal state is
returned exactly as it was, so the user can retry or cancel. -/
theorem C5_save (s : NotesModal) (dy dm dc : String) (r : FetchRes) :
    (saveValidation s dy dm dc = true → saveOk r = true →
      ((saveCurrent s dy dm dc r).1.originalContent = s.editorValue ∧
       (saveCurrent s dy dm dc r).1.rawContent = s.editorValue ∧
       (saveCurrent s dy dm dc r).1.intent = "update" ∧
       (saveCurrent s dy dm dc r).1.state = "view" ∧
       (saveCurrent s dy dm dc r).1.isOpen = false ∧
       (saveCurrent s dy dm dc r).1.context = none ∧
       (saveCurrent s dy dm dc r).2.isSome = true)) ∧
    (saveValidation s dy dm dc = false ∨ saveOk r = false →
      (saveCurrent s dy dm dc r).1 = s ∧ (saveCurrent s dy dm dc r).2.isSome = true) := by
  cases hctx : s.context with
  | none =>
    unfold saveCurrent saveValidation
    simp only [hctx]
    split_ifs <;>
      refine ⟨fun hv hok => ?_, fun hbad => ?_⟩ <;>
        simp_all [closeModal, setState, updateDirtyState]
  | some c =>
    cases c with
    | caseLaw caseId =>
      unfold saveCurrent saveValidation
      simp only [hctx]
      split_ifs <;>
        refine ⟨fun hv hok => ?_, fun hbad => ?_⟩ <;>
          simp_all [closeModal, setState, updateDirtyState]
    | caseTriple y m cn =>
      unfold saveCurrent saveValidation
      simp only [hctx]
      split_ifs <;>
        refine ⟨fun hv hok => ?_, fun hbad => ?_⟩ <;>
          simp_all [closeModal, setState, updateDirtyState]

theorem C5_save_witness :
    ((saveCurrent modalEditEx "" "" "" (FetchRes.response 200 (some { ok := some true }))).1.isOpen
        = false ∧
      (saveCurrent modalEditEx "" "" ""
        (FetchRes.response 200 (some { ok := some true }))).1.originalContent = "new") ∧
    ((saveCurrent modalEditEx "" "" "" (FetchRes.response 500 none)).1 = modalEditEx ∧
      (saveCurrent modalEditEx "" "" "" (FetchRes.response 500 none)).2.isSome = true) :=
  ⟨by
    have h := (C5_save modalEditEx "" "" ""
      (FetchRes.response 200 (some { ok := some true }))).1 (by decide) (by decide)
    exact ⟨h.2.2.2.2.1, h.1⟩,
   (C5_save modalEditEx "" "" "" (FetchRes.response 500 none)).2 (Or.inr (by decide))⟩

/-! ## C10 -/

/-- C10: the visible `View / Edit Note.json` button's click handler decides
from a fresh `getNoteState` probe of the click-time `(year, month, case)`
selection: existence holds exactly when that fresh response is 2xx with a
truthy `ok`; if the note no longer exists, an alert is shown, action
availability is recomputed (which hides the button), and the editor is not
opened; otherwise the editor opens with the freshly fetched content, intent
`update`, and a context naming the click-time triple. -/
theorem C10_refetch (year month caseName : String) (fresh : FetchRes) :
    ((getNoteState fresh).noteExists = respOkFresh fresh) ∧
    (respOkFresh fresh = false →
      noteBtnOnClick year month caseName fresh =
        { opened := none, alerted := some "Note.json not found for this case.",
          recomputedActions := true }) ∧
    (respOkFresh fresh = true →
      noteBtnOnClick year month caseName fresh =
        { opened := some ((getNoteState fresh).content, "update",
            NoteCtx.caseTriple year month caseName),
          alerted := none, recomputedActions := false }) := by
  have hex : (getNoteState fresh).noteExists = respOkFresh fresh := by
    cases fresh with
    | netError m => rfl
    | response status parsed =>
      cases parsed with
      | none => simp [getNoteState, respOkFresh]
      | some d =>
        by_cases h : is2xx status && okTruthy d <;> simp [getNoteState, respOkFresh, h]
  refine ⟨hex, fun hmiss => ?_, fun hhit => ?_⟩
  · simp [noteBtnOnClick, hex, hmiss]
  · simp only [noteBtnOnClick, hex, hhit, Bool.not_true, Bool.false_eq_true, if_false]
    have hcontent : jsOr (some (getNoteState fresh).content) "" = (getNoteState fresh).content := by
      simp only [jsOr]
      split_ifs with h0
      · rw [h0]
      · rfl
    rw [hcontent]

theorem C10_refetch_witness :
    noteBtnOnClick "2024" "Mar" "Doe v. Roe"
        (FetchRes.response 200 (some { ok := some true, content := some "note body" })) =
      { opened := some ("note body", "update", NoteCtx.caseTriple "2024" "Mar" "Doe v. Roe"),
        alerted := none, recomputedActions := false } ∧
    noteBtnOnClick "2024" "Mar" "Doe v. Roe" (FetchRes.response 404 (some { ok := some false })) =
      { opened := none, alerted := some "Note.json not found for this case.",
        recomputedActions := true } :=
  ⟨(C10_refetch "2024" "Mar" "Doe v. Roe"
      (FetchRes.response 200 (some { ok := some true, content := some "note body" }))).2.2
        (by decide),
   (C10_refetch "2024" "Mar" "Doe v. Roe"
      (FetchRes.response 404 (some { ok := some false }))).2.1 (by decide)⟩

/-! ## C1 -/

/-- C1, counterexample: `runBasicSearch` never inspects `resp.ok` or
`data.ok` — a 500 response whose JSON body carries a `results` array (and
no `ok` field at all) is rendered as a successful result list, so the
claim that every such response is treated as a surfaced failure is
false. -/
theorem C1_counterexample : ¬ claim_C1 := by
  intro hcl
  obtain ⟨m, hm⟩ := hcl.1 (FetchRes.response 500 (some { results := some [recEx] })) (by decide)
  simp [runBasicSearchOn] at hm

/-- C1, amended: the uniform non-2xx-or-no-`ok` failure treatment holds for
the file delete and the note save (failure alerted with the server message
or the `HTTP <status>` fallback, state untouched), and the note
existence/fetch probe treats every such response as "no note".  The
case-name search and the case-law search surface failures only for non-2xx
statuses (with `data.error` or the HTTP fallback) and accept 2xx bodies
that lack `ok`; the basic search, the advanced search and the directory
listing render the parsed body regardless of both the status and `ok`. -/
theorem C1_amended :
    (∀ status parsed, badResp (.response status parsed) = true →
      deleteFileOn (.response status parsed) =
        .alertedDel ("Delete failed: " ++ jsOr (parsed.getD .empty).msg (httpMsg status))) ∧
    (∀ status parsed, badResp (.response status parsed) = false →
      deleteFileOn (.response status parsed) = .rowRemoved) ∧
    (∀ s dy dm dc r, saveValidation s dy dm dc = true → badResp r = true →
      (saveCurrent s dy dm dc r).1 = s ∧
      (saveCurrent s dy dm dc r).2 = some ("Save failed: " ++ saveErrMsg r)) ∧
    (∀ r, badResp r = true → (getNoteState r).noteExists = false) ∧
    (∀ status parsed, is2xx status = false →
      performNameSearchOn (.response status parsed) =
        .errorShownName ("Search failed: " ++ jsOr (parsed.getD .empty).error (httpMsg status))) ∧
    (∀ status parsed, is2xx status = true →
      performNameSearchOn (.response status parsed) =
        .renderedCases ((parsed.getD .empty).caseHits.getD [])) ∧
    (∀ status parsed, is2xx status = false →
      performCLSearchOn (.response status parsed) =
        .alertedCL ("Search failed: " ++ jsOr (parsed.getD .empty).error (httpMsg status))) ∧
    (∀ status parsed, is2xx status = true →
      performCLSearchOn (.response status parsed) =
        .renderedCL ((parsed.getD .empty).results.getD [])) ∧
    (∀ status parsed, runBasicSearchOn (.response status parsed) =
      .rendered (((parsed.getD { results := some [] }).results).getD [])) ∧
    (∀ status parsed, runAdvancedSearchOn (.response status parsed) =
      .rendered (((parsed.getD { results := some [] }).results).getD [])) ∧
    (∀ relPath status parsed, showDirLevelOn true relPath (.response status parsed) =
      .renderedListing (dirLevelRows relPath (parsed.getD .empty))) := by
  refine ⟨?_, ?_, ?_, ?_, ?_, ?_, ?_, ?_, fun _ _ => rfl, fun _ _ => rfl, fun _ _ _ => rfl⟩
  · intro status parsed hbad
    simp only [badResp] at hbad
    have hc : (!(is2xx status) || !(okTruthy (parsed.getD .empty))) = true := by
      cases h1 : is2xx status <;> cases h2 : okTruthy (parsed.getD .empty) <;> simp_all
    simp [deleteFileOn, hc]
  · intro status parsed hgood
    simp only [badResp] at hgood
    have hc : (!(is2xx status) || !(okTruthy (parsed.getD .empty))) = false := by
      cases h1 : is2xx status <;> cases h2 : okTruthy (parsed.getD .empty) <;> simp_all
    simp [deleteFileOn, hc]
  · intro s dy dm dc r hval hbad
    have hko : saveOk r = false := by
      cases r with
      | netError m => rfl
      | response status parsed =>
        simp only [badResp] at hbad
        have hc0 : (is2xx status && okTruthy (parsed.getD .empty)) = false := by
          cases h1 : is2xx status <;> cases h2 : okTruthy (parsed.getD .empty) <;> simp_all
        simp [saveOk, hc0]
    rw [saveCurrent_fail s dy dm dc r hval hko]
    exact ⟨rfl, rfl⟩
  · intro r hbad
    cases r with
    | netError m => rfl
    | response status parsed =>
      simp only [badResp] at hbad
      cases parsed with
      | none => rfl
      | some d =>
        have hc : (is2xx status && okTruthy d) = false := by
          cases h1 : is2xx status <;> cases h2 : okTruthy d <;> simp_all
        simp [getNoteState, hc]
  · intro status parsed h2xx
    simp [performNameSearchOn, h2xx]
  · intro status parsed h2xx
    simp [performNameSearchOn, h2xx]
  · intro status parsed h2xx
    simp [performCLSearchOn, h2xx]
  · intro status parsed h2xx
    simp [performCLSearchOn, h2xx]

theorem C1_amended_witness :
    deleteFileOn (FetchRes.response 500 (some bodyMsgEx)) =
      DeleteR.alertedDel ("Delete failed: " ++ jsOr bodyMsgEx.msg (httpMsg 500)) ∧
    deleteFileOn (FetchRes.response 200 (some { ok := some true })) = DeleteR.rowRemoved ∧
    (getNoteState (FetchRes.response 404 none)).noteExists = false ∧
    performNameSearchOn (FetchRes.response 503 none) =
      NameSearchR.errorShownName ("Search failed: " ++ jsOr RespBody.empty.error (httpMsg 503)) ∧
    performNameSearchOn (FetchRes.response 200 (some { caseHits := some [] })) =
      NameSearchR.renderedCases [] ∧
    performCLSearchOn (FetchRes.response 204 none) = CLSearchR.renderedCL [] ∧
    (saveCurrent modalEditEx "" "" "" (FetchRes.response 500 none)).2 =
      some ("Save failed: " ++ saveErrMsg (FetchRes.response 500 none)) :=
  ⟨C1_amended.1 500 (some bodyMsgEx) (by decide),
   C1_amended.2.1 200 (some { ok := some true }) (by decide),
   C1_amended.2.2.2.1 (FetchRes.response 404 none) (by decide),
   C1_amended.2.2.2.2.1 503 none (by decide),
   C1_amended.2.2.2.2.2.1 200 (some { caseHits := some [] }) (by decide),
   C1_amended.2.2.2.2.2.2.2.1 204 none (by decide),
   (C1_amended.2.2.1 modalEditEx "" "" "" (FetchRes.response 500 none) (by decide)
     (by decide)).2⟩

/-! ## Lemmas: `smartTruncate` -/

lemma lastIndexOf_cases (s : List Char) (c : Char) :
    lastIndexOf s c = -1 ∨ (0 ≤ lastIndexOf s c ∧ lastIndexOf s c < (s.length : Int)) := by
  induction s with
  | nil => exact Or.inl rfl
  | cons a t ih =>
    simp only [lastIndexOf, List.length_cons]
    rcases ih with h | ⟨h0, h1⟩
    · rw [h]
      norm_num
      by_cases hac : a = c
      · rw [if_pos hac]
        right
        constructor
        · omega
        · omega
      · simp [hac]
    · rw [if_pos (by omega : lastIndexOf t c ≠ -1)]
      right
      push_cast
      omega

lemma jsSlice_take (s : List Char) (b : Int) (h0 : 0 ≤ b) (h1 : b ≤ (s.length : Int)) :
    jsSlice s 0 (some b) = s.take b.toNat := by
  simp only [jsSlice]
  rw [if_neg (by omega : ¬ (0 : Int) < 0), if_neg (by omega : ¬ b < 0)]
  rw [min_eq_left h1, min_eq_left (by positivity : (0 : Int) ≤ (s.length : Int))]
  simp

lemma jsSlice_drop (s : List Char) (a : Int) (h0 : 0 ≤ a) (h1 : a ≤ (s.length : Int)) :
    jsSlice s a none = s.drop a.toNat := by
  simp only [jsSlice]
  rw [if_neg (by omega : ¬ a < 0), min_eq_left h1]
  rw [Int.toNat_natCast, List.take_length]

lemma jsSlice_suffix (s : List Char) (e : Int) (h0 : 0 < e) (h1 : e ≤ (s.length : Int)) :
    jsSlice s (-e) none = s.drop (s.length - e.toNat) := by
  simp only [jsSlice]
  rw [if_pos (by omega : -e < 0)]
  have hmax : max ((s.length : Int) + -e) 0 = (s.length : Int) - e := by omega
  rw [hmax]
  have h2 : ((s.length : Int) - e).toNat = s.length - e.toNat := by omega
  rw [h2, Int.toNat_natCast, List.take_length]

lemma baseOf_extOf_length (s : List Char) :
    ((baseOf s).length : Int) + ((extOf s).length : Int) = (s.length : Int) := by
  unfold baseOf extOf
  rcases lastIndexOf_cases s '.' with h | ⟨h0, h1⟩
  · rw [h]
    norm_num
  · have hne : lastIndexOf s '.' ≠ -1 := by omega
    rw [if_pos hne, if_pos hne]
    rw [jsSlice_take s _ h0 (le_of_lt h1), jsSlice_drop s _ h0 (le_of_lt h1)]
    rw [List.length_take, List.length_drop]
    rw [Nat.min_eq_left (by omega)]
    omega

lemma smartTruncate_short (t : List Char) (m : Int) (h : (t.length : Int) ≤ m) :
    smartTruncate t m = t := by
  unfold smartTruncate
  rw [if_pos (Or.inr h)]

lemma smartTruncate_long (s : List Char) (m : Int)
    (hm : ((extOf s).length : Int) + 5 ≤ m) (hlen : m < (s.length : Int)) :
    smartTruncate s m =
      (baseOf s).take (ceilHalf (m - ((extOf s).length : Int) - 3)).toNat ++
        ['.', '.', '.'] ++
        (baseOf s).drop
          ((baseOf s).length - (floorHalf (m - ((extOf s).length : Int) - 3)).toNat) ++
        extOf s ∧
    ((smartTruncate s m).length : Int) = m := by
  have hne : ¬ (s = [] ∨ (s.length : Int) ≤ m) := by
    rintro (he | hle)
    · subst he
      simp [extOf, lastIndexOf] at hm hlen
      omega
    · omega
  have hBE := baseOf_extOf_length s
  have hsum : ceilHalf (m - ((extOf s).length : Int) - 3) +
      floorHalf (m - ((extOf s).length : Int) - 3) = m - ((extOf s).length : Int) - 3 := by
    unfold ceilHalf floorHalf
    omega
  have hcl : 1 ≤ ceilHalf (m - ((extOf s).length : Int) - 3) := by
    unfold ceilHalf
    omega
  have hfl : 1 ≤ floorHalf (m - ((extOf s).length : Int) - 3) := by
    unfold floorHalf
    omega
  have hku : ceilHalf (m - ((extOf s).length : Int) - 3) ≤ m - ((extOf s).length : Int) - 3 := by
    unfold ceilHalf
    omega
  have hfu : floorHalf (m - ((extOf s).length : Int) - 3) ≤ m - ((extOf s).length : Int) - 3 := by
    unfold floorHalf
    omega
  have hBlen : m - ((extOf s).length : Int) - 3 < (baseOf s).length := by omega
  have hST : smartTruncate s m =
      jsSlice (baseOf s) 0 (some (ceilHalf (m - ((extOf s).length : Int) - 3))) ++
        ['.', '.', '.'] ++
        jsSlice (baseOf s) (-(floorHalf (m - ((extOf s).length : Int) - 3))) none ++
        extOf s := by
    unfold smartTruncate
    rw [if_neg hne]
  have h1 := jsSlice_take (baseOf s) (ceilHalf (m - ((extOf s).length : Int) - 3))
    (by omega) (by omega)
  have h2 := jsSlice_suffix (baseOf s) (floorHalf (m - ((extOf s).length : Int) - 3))
    (by omega) (by omega)
  rw [hST, h1, h2]
  refine ⟨rfl, ?_⟩
  simp only [List.length_append, List.length_take, List.length_drop, List.length_cons,
    List.length_nil]
  rw [Nat.min_eq_left (by omega)]
  omega

/-! ## C3 -/

/-- C3, counterexample: with `maxLen = 7` the name `abcdef.txt` (length 10)
must be truncated, but `keep = 7 − 4 − 3 = 0` makes `endLen = 0` and
`base.slice(-0)` is `base.slice(0)` — the whole base — so the output
`...abcdef.txt` has length 13, exceeding the configured maximum. -/
theorem C3_counterexample :
    (7 : Int) < (("abcdef.txt".data).length : Int) ∧
    ¬ (((smartTruncate "abcdef.txt".data 7).length : Int) ≤ 7) := by decide

/-- C3, amended: provided the budget leaves at least two characters for the
base slices (`maxLen ≥ ext.length + 5`), `smartTruncate` returns the name
unchanged when its length is at most the maximum, and otherwise returns a
head slice of the base name, a literal `...`, a tail slice of the base
name, and the extension, with the extension verbatim at the end and the
total length never exceeding the maximum.  (With smaller budgets the
output can exceed the maximum — see the counterexample.) -/
theorem C3_amended (s : List Char) (m : Int) (hm : ((extOf s).length : Int) + 5 ≤ m) :
    ((s.length : Int) ≤ m → smartTruncate s m = s) ∧
    (m < (s.length : Int) →
      (∃ k1 k2, smartTruncate s m =
        (baseOf s).take k1 ++ ['.', '.', '.'] ++ (baseOf s).drop k2 ++ extOf s) ∧
      extOf s <:+ smartTruncate s m ∧
      ((smartTruncate s m).length : Int) ≤ m) := by
  constructor
  · intro h
    exact smartTruncate_short s m h
  · intro hlen
    obtain ⟨heq, hlength⟩ := smartTruncate_long s m hm hlen
    refine ⟨⟨_, _, heq⟩, ?_, le_of_eq hlength⟩
    rw [heq]
    exact List.suffix_append _ _

theorem C3_amended_witness :
    ((smartTruncate "abcdefghijklmnopqrstuvwxyz.txt".data 20).length : Int) ≤ 20 ∧
    extOf "abcdefghijklmnopqrstuvwxyz.txt".data <:+
      smartTruncate "abcdefghijklmnopqrstuvwxyz.txt".data 20 :=
  ⟨((C3_amended "abcdefghijklmnopqrstuvwxyz.txt".data 20 (by decide)).2 (by decide)).2.2,
   ((C3_amended "abcdefghijklmnopqrstuvwxyz.txt".data 20 (by decide)).2 (by decide)).2.1⟩

/-! ## C8 -/

/-- C8, counterexample: at `maxLen = 7`, truncating `abcdef.txt` yields
`...abcdef.txt` (13 characters, still above the maximum because
`endLen = 0` degenerates to the whole base), so truncating the result
again yields the different string `......abcdef.txt` — truncation is not
idempotent. -/
theorem C8_counterexample :
    smartTruncate (smartTruncate "abcdef.txt".data 7) 7 ≠ smartTruncate "abcdef.txt".data 7 := by
  decide

/-- C8, amended: provided the budget leaves at least two characters for the
base slices (`maxLen ≥ ext.length + 5`, in particular for every name at
the call sites' `maxLen = 100` with an extension of at most 95
characters), truncated output has length exactly the maximum when
truncation occurs, so truncating an already-truncated name at the same
maximum returns it unchanged. -/
theorem C8_amended (s : List Char) (m : Int) (hm : ((extOf s).length : Int) + 5 ≤ m) :
    smartTruncate (smartTruncate s m) m = smartTruncate s m := by
  by_cases h : (s.length : Int) ≤ m
  · rw [smartTruncate_short s m h]
    exact smartTruncate_short s m h
  · push_neg at h
    obtain ⟨heq, hlength⟩ := smartTruncate_long s m hm h
    exact smartTruncate_short _ m (le_of_eq hlength)

theorem C8_amended_witness :
    smartTruncate (smartTruncate "abcdefghijklmnopqrstuvwxyz".data 9) 9 =
      smartTruncate "abcdefghijklmnopqrstuvwxyz".data 9 :=
  C8_amended "abcdefghijklmnopqrstuvwxyz".data 9 (by decide)

end CaseOrg
